import Mathlib

/-!
Verification of the turn-taking orchestration core of the Twilio ↔ OpenAI
Realtime ↔ ElevenLabs voice bridge (repository `transrec`).

The repository ships three near-duplicate variants of the bridge, and the
claims cite code in all of them:

* namespace `IndexJs` — the first listing in `src/index.js` (silence-timer
  commit, server auto-generated responses via `create_response: true`,
  ElevenLabs TTS whose socket close/error path runs `endTTS`);
* namespace `Part000` — `src/unnamed/part_000` (silence-timer commit followed
  by an explicit `response.create`, `speakWithEleven` gated on `streamSid`
  with a bounded 100 ms retry loop); the second listing inside
  `src/index.js` is the same design line for line in everything modelled
  here;
* namespace `Part001` — `src/unnamed/part_001` (commit driven by the
  `input_audio_buffer.speech_stopped` event, OpenAI audio relayed directly,
  no local TTS).

Modelling conventions, uniform across the three machines:

* bytes are `Nat` and buffers are `List Nat`; the base64 transport encoding
  is elided, so a media payload is its decoded byte list and
  `Buffer.from(payload, 'base64').length` is the list length;
* a WebSocket's `readyState === OPEN` is a `Bool` field of the state;
* `setTimeout` callbacks are explicit events delivered to the step function
  (silence-timer expiry, scheduled `speakWithEleven` retries), since the
  runtime is single-threaded and handlers run to completion;
* sends are modelled on the non-throwing path (`ws.send` succeeding), so the
  `catch` branches of the source do not appear;
* each ElevenLabs TTS socket opened by `speakWithEleven` is identified by a
  ghost generation number `g` (the closure identity of its `'message'`,
  `'close'` and `'error'` handlers); the source code itself stores no such
  token and none of its handlers inspects `g`, which several claims turn on;
* `console.log`/`console.warn` calls are modelled only where a claim refers
  to them (the not-ready drop notice, the TTS give-up warning).
-/

/-- One element of `response.response.output` as consumed by the
`response.completed` / `response.done` handlers (`p.type`, `p.text`). -/
structure OutputPart where
  partType : String
  text : String
deriving Repr, DecidableEq

/-- Events arriving on the OpenAI Realtime socket that the handlers inspect.
`responseDone` covers both `response.completed` and `response.done`, which
every variant treats identically. -/
inductive OAIEvent
  | sessionCreated
  | sessionUpdated
  | committed
  | speechStarted
  | speechStopped
  | responseDone (output : List OutputPart)
  | outputTextDelta (delta : String)
  | audioDelta (payload : List Nat)
  | oaError
deriving Repr, DecidableEq

/-- Parsed JSON control messages on an ElevenLabs TTS socket. -/
inductive ELControl
  | elError
  | streamStart
  | streamEnd
  | other
deriving Repr, DecidableEq

/-- Messages sent to the OpenAI Realtime socket. -/
inductive OAIMsg
  | sessionUpdate
  | append (audio : List Nat)
  | commit
  | responseCreate
deriving Repr, DecidableEq

/-- Observable outputs of one handler invocation. -/
inductive Out
  /-- `openAiWs.send(...)`. -/
  | oaSend (m : OAIMsg)
  /-- One `event: 'media'` frame sent to the Twilio socket by the TTS
  session of generation `g`, tagged with the current `streamSid`. -/
  | frame (g : Nat) (sid : Option String) (payload : List Nat)
  /-- `console.warn` the claims refer to. -/
  | warn (s : String)
  /-- `console.log` notice the claims refer to. -/
  | note (s : String)
  /-- `setTimeout(() => speakWithEleven(text, attempt), 100)`. -/
  | retrySpeak (text : String) (attempt : Nat)
  /-- `setTimeout(() => tryWelcome(attempt), 100)`. -/
  | retryWelcome (attempt : Nat)
  /-- A new ElevenLabs socket of generation `g` opened for `text`. -/
  | sessionStart (g : Nat) (text : String)
deriving Repr, DecidableEq

/-- The OpenAI-bound messages among a handler's outputs. -/
def oaMsgs (out : List Out) : List OAIMsg :=
  out.filterMap fun o =>
    match o with
    | .oaSend m => some m
    | _ => none

/-- The audio-append payloads among a handler's outputs. -/
def appendsOf (out : List Out) : List (List Nat) :=
  out.filterMap fun o =>
    match o with
    | .oaSend (.append a) => some a
    | _ => none

/-- The media frames among a handler's outputs, as
(generation, stream id, payload) triples. -/
def framesOf (out : List Out) : List (Nat × Option String × List Nat) :=
  out.filterMap fun o =>
    match o with
    | .frame g sid p => some (g, sid, p)
    | _ => none

/-- `FRAME_BYTES` / `FRAME_SIZE`: 160 bytes = 20 ms of 8 kHz μ-law. -/
def FRAME_BYTES : Nat := 160

/-- `MIN_FRAMES` / `MIN_FRAMES_TO_COMMIT`: 6 frames = 120 ms. -/
def MIN_FRAMES : Nat := 6

/-- The while-loop of `sliceIntoUlaw20msFrames`, fuel-indexed so that it is
structurally recursive (each iteration strips `FRAME_BYTES ≥ 1` bytes, so
`buf.length` iterations always suffice). -/
def sliceGo : Nat → List Nat → List (List Nat) × List Nat
  | 0, buf => ([], buf)
  | fuel + 1, buf =>
    if FRAME_BYTES ≤ buf.length then
      let rest := sliceGo fuel (buf.drop FRAME_BYTES)
      (buf.take FRAME_BYTES :: rest.1, rest.2)
    else
      ([], buf)

/-- The while-loop of `sliceIntoUlaw20msFrames` over the concatenated
buffer: strip leading 160-byte frames while at least one fits and return
them together with the remainder. -/
def sliceFramesAux (buf : List Nat) : List (List Nat) × List Nat :=
  sliceGo buf.length buf

/-- `sliceIntoUlaw20msFrames(ulawBuffer, carry)`: concatenate the carry in
front of the incoming chunk and cut maximal 160-byte frames, returning the
frames and the strict remainder as leftover. -/
def sliceIntoUlaw20msFrames (ulawBuffer : List Nat) (carry : List Nat) :
    List (List Nat) × List Nat :=
  sliceFramesAux (carry ++ ulawBuffer)

theorem sliceGo_congr :
    ∀ (f1 f2 : Nat) (buf : List Nat), buf.length ≤ f1 → buf.length ≤ f2 →
      sliceGo f1 buf = sliceGo f2 buf := by
  intro f1
  induction f1 with
  | zero =>
      intro f2 buf h1 h2
      have : buf = [] := List.eq_nil_of_length_eq_zero (by omega)
      subst this
      cases f2 with
      | zero => rfl
      | succ k => simp [sliceGo, FRAME_BYTES]
  | succ f1 ih =>
      intro f2 buf h1 h2
      cases f2 with
      | zero =>
          have : buf = [] := List.eq_nil_of_length_eq_zero (by omega)
          subst this
          simp [sliceGo, FRAME_BYTES]
      | succ k =>
          simp only [sliceGo]
          by_cases hb : FRAME_BYTES ≤ buf.length
          · rw [if_pos hb, if_pos hb,
              ih k (buf.drop FRAME_BYTES)
                (by simp only [List.length_drop, FRAME_BYTES] at *; omega)
                (by simp only [List.length_drop, FRAME_BYTES] at *; omega)]
          · rw [if_neg hb, if_neg hb]

/-- The defining equation of the while-loop in its natural form. -/
theorem sliceFramesAux_eq (buf : List Nat) :
    sliceFramesAux buf =
      if FRAME_BYTES ≤ buf.length then
        (buf.take FRAME_BYTES :: (sliceFramesAux (buf.drop FRAME_BYTES)).1,
         (sliceFramesAux (buf.drop FRAME_BYTES)).2)
      else
        ([], buf) := by
  by_cases hb : FRAME_BYTES ≤ buf.length
  · rw [if_pos hb]
    obtain ⟨k, hk⟩ : ∃ k, buf.length = k + 1 :=
      ⟨buf.length - 1, by simp only [FRAME_BYTES] at hb; omega⟩
    unfold sliceFramesAux
    rw [hk]
    simp only [sliceGo, if_pos hb]
    rw [sliceGo_congr k (buf.drop FRAME_BYTES).length (buf.drop FRAME_BYTES)
      (by simp only [List.length_drop, FRAME_BYTES] at *; omega) le_rfl]
  · rw [if_neg hb]
    unfold sliceFramesAux
    cases hbuf : buf.length with
    | zero => simp [sliceGo]
    | succ k => simp only [sliceGo, hbuf ▸ hb, if_neg, ite_eq_right_iff]; intro h; exact absurd (hbuf ▸ h) hb

theorem sliceFramesAux_frame_len (buf : List Nat) :
    ∀ f ∈ (sliceFramesAux buf).1, f.length = FRAME_BYTES := by
  suffices h : ∀ (fuel : Nat) (b : List Nat),
      ∀ f ∈ (sliceGo fuel b).1, f.length = FRAME_BYTES from h buf.length buf
  intro fuel
  induction fuel with
  | zero => intro b f hf; simp [sliceGo] at hf
  | succ fuel ih =>
      intro b f hf
      by_cases hb : FRAME_BYTES ≤ b.length
      · simp only [sliceGo, if_pos hb] at hf
        rcases List.mem_cons.mp hf with hf | hf
        · subst hf
          simpa using List.length_take_of_le hb
        · exact ih _ f hf
      · simp [sliceGo, if_neg hb] at hf

theorem sliceFramesAux_leftover_lt (buf : List Nat) :
    (sliceFramesAux buf).2.length < FRAME_BYTES := by
  suffices h : ∀ (fuel : Nat) (b : List Nat), b.length ≤ fuel →
      (sliceGo fuel b).2.length < FRAME_BYTES from h buf.length buf le_rfl
  intro fuel
  induction fuel with
  | zero =>
      intro b hb
      simp only [sliceGo]
      simp only [FRAME_BYTES]
      omega
  | succ fuel ih =>
      intro b hb
      by_cases hfb : FRAME_BYTES ≤ b.length
      · simp only [sliceGo, if_pos hfb]
        exact ih _ (by simp only [List.length_drop, FRAME_BYTES] at *; omega)
      · simp only [sliceGo, if_neg hfb]
        omega

theorem sliceFramesAux_flatten (buf : List Nat) :
    (sliceFramesAux buf).1.flatten ++ (sliceFramesAux buf).2 = buf := by
  suffices h : ∀ (fuel : Nat) (b : List Nat),
      (sliceGo fuel b).1.flatten ++ (sliceGo fuel b).2 = b from h buf.length buf
  intro fuel
  induction fuel with
  | zero => intro b; simp [sliceGo]
  | succ fuel ih =>
      intro b
      by_cases hb : FRAME_BYTES ≤ b.length
      · simp only [sliceGo, if_pos hb, List.flatten_cons, List.append_assoc]
        rw [ih]
        exact List.take_append_drop _ _
      · simp [sliceGo, if_neg hb]

/-- Appending more input on the right only extends the produced frames:
slicing `a ++ b` is slicing `a`, then slicing its leftover with `b`. -/
theorem sliceFramesAux_append (a b : List Nat) :
    sliceFramesAux (a ++ b) =
      ((sliceFramesAux a).1 ++ (sliceFramesAux ((sliceFramesAux a).2 ++ b)).1,
       (sliceFramesAux ((sliceFramesAux a).2 ++ b)).2) := by
  generalize hn : a.length = n
  induction n using Nat.strong_induction_on generalizing a with
  | _ n ih =>
      by_cases hb : FRAME_BYTES ≤ a.length
      · have hlen : FRAME_BYTES ≤ (a ++ b).length := by
          simp only [List.length_append]
          omega
        rw [sliceFramesAux_eq (a ++ b), if_pos hlen, sliceFramesAux_eq a,
          if_pos hb, List.take_append_of_le_length hb,
          List.drop_append_of_le_length hb,
          ih ((a.drop FRAME_BYTES).length)
            (by simp only [List.length_drop, FRAME_BYTES] at *; omega)
            (a.drop FRAME_BYTES) rfl]
        simp [List.cons_append]
      · conv_rhs => rw [sliceFramesAux_eq a, if_neg hb]
        rfl

/-- Feeding a list of consecutive chunks to `sliceIntoUlaw20msFrames` one
call at a time, threading each call's leftover as the next call's carry:
the repeated-partial-call pattern of the TTS `'message'` handlers. -/
def sliceChunks (chunks : List (List Nat)) (carry : List Nat) :
    List (List Nat) × List Nat :=
  match chunks with
  | [] => ([], carry)
  | c :: cs =>
      let r := sliceIntoUlaw20msFrames c carry
      let rest := sliceChunks cs r.2
      (r.1 ++ rest.1, rest.2)

theorem sliceChunks_eq_single (chunks : List (List Nat)) (carry : List Nat)
    (hc : carry.length < FRAME_BYTES) :
    sliceChunks chunks carry = sliceFramesAux (carry ++ chunks.flatten) := by
  induction chunks generalizing carry with
  | nil =>
      simp only [sliceChunks, List.flatten_nil, List.append_nil]
      rw [sliceFramesAux_eq, if_neg (by omega)]
  | cons c cs ih =>
      simp only [sliceChunks, sliceIntoUlaw20msFrames, List.flatten_cons]
      rw [← List.append_assoc, sliceFramesAux_append (carry ++ c) cs.flatten,
        ih _ (sliceFramesAux_leftover_lt (carry ++ c))]

/-- C4: for every input chunk and carry, the frame slicer returns frames of
exactly 160 bytes each, a leftover strictly shorter than 160 bytes, and the
concatenation of carry and input equals the concatenation of the frames
followed by the leftover. -/
theorem C4_slicer_exact (input carry : List Nat) :
    ((sliceIntoUlaw20msFrames input carry).1.all
        fun f => f.length == FRAME_BYTES) = true ∧
    (sliceIntoUlaw20msFrames input carry).2.length < FRAME_BYTES ∧
    (sliceIntoUlaw20msFrames input carry).1.flatten ++
        (sliceIntoUlaw20msFrames input carry).2 = carry ++ input := by
  refine ⟨?_, sliceFramesAux_leftover_lt _, sliceFramesAux_flatten _⟩
  rw [List.all_eq_true]
  intro f hf
  simpa using sliceFramesAux_frame_len _ f hf

/-- C7: slicing a byte sequence chunk by chunk, threading each call's
leftover as the next call's carry starting from an empty carry, produces
exactly the frames and leftover of a single slicer call on the unsplit
sequence. -/
theorem C7_slicer_chunked (chunks : List (List Nat)) :
    sliceChunks chunks [] = sliceIntoUlaw20msFrames chunks.flatten [] := by
  rw [sliceChunks_eq_single chunks [] (by simp [FRAME_BYTES]),
    sliceIntoUlaw20msFrames, List.nil_append]

/-- JavaScript `String.prototype.trim()`, modelled structurally over the
character list (Lean's own `String.trim` is defined by well-founded
recursion on byte positions and does not reduce in the kernel, which the
concrete witnesses below need). -/
def jsTrim (t : String) : String :=
  ⟨((t.data.dropWhile Char.isWhitespace).reverse.dropWhile
      Char.isWhitespace).reverse⟩

namespace IndexJs

/-!
Embedding of the per-call handlers of the first listing of `src/index.js`:
the closure state of one `/media-stream` connection and the event handlers
registered on the Twilio socket, the OpenAI Realtime socket, the silence
timer and the per-utterance ElevenLabs sockets.
-/

/-- The per-connection mutable variables of the first `src/index.js`
listing, plus two modelling fields: `openAiOpen`/`twilioOpen` stand for
`readyState === WebSocket.OPEN` of the two long-lived sockets, and
`nextGen` is the ghost count of ElevenLabs sockets opened so far (the
current one, when present, is `elevenWs`). -/
structure St where
  streamSid : Option String
  openaiReady : Bool
  openAiOpen : Bool
  twilioOpen : Bool
  elevenWs : Option Nat
  ttsPlaying : Bool
  ttsCarry : List Nat
  bytesBuffered : Nat
  collecting : Bool
  silenceTimer : Bool
  nextGen : Nat
deriving Repr, DecidableEq

/-- State at `'Client connected'`: both long-lived sockets exist, the
Twilio one is already open, the OpenAI one not yet. -/
def init : St :=
  { streamSid := none
    openaiReady := false
    openAiOpen := false
    twilioOpen := true
    elevenWs := none
    ttsPlaying := false
    ttsCarry := []
    bytesBuffered := 0
    collecting := false
    silenceTimer := false
    nextGen := 0 }

/-- `stopTTS()`: clear the playing flag, reset the carry, close and drop the
ElevenLabs socket. -/
def stopTTS (s : St) : St :=
  { s with ttsPlaying := false, ttsCarry := [], elevenWs := none }

/-- `endTTS()` (the `'close'`/`'error'` cleanup of an ElevenLabs socket):
clear the playing flag and drop the socket; the carry is left as is. -/
def endTTS (s : St) : St :=
  { s with ttsPlaying := false, elevenWs := none }

/-- `commitAudioBuffer()`: clear the silence timer; skip when nothing is
buffered; otherwise send `input_audio_buffer.commit` when at least
`MIN_FRAMES` whole frames are buffered and the OpenAI socket is open, and
skip silently otherwise. The buffer is deliberately not reset here. This
listing sends no `response.create`: its session is configured with
`create_response: true`. -/
def commitAudioBuffer (s : St) : St × List Out :=
  let s := { s with silenceTimer := false }
  if s.bytesBuffered = 0 then
    (s, [])
  else
    let frames := s.bytesBuffered / FRAME_BYTES
    if MIN_FRAMES ≤ frames ∧ s.openAiOpen = true then
      (s, [Out.oaSend .commit])
    else
      (s, [])

/-- `speakWithEleven(text)`: refuse when the text is empty or TTS is already
playing; otherwise drop any existing ElevenLabs socket and open a fresh one
(generation `s.nextGen`), setting `ttsPlaying` and clearing the carry. -/
def speakWithEleven (s : St) (text : String) : St × List Out :=
  if text = "" ∨ s.ttsPlaying = true then
    (s, [])
  else
    let g := s.nextGen
    ({ s with elevenWs := some g, nextGen := g + 1, ttsPlaying := true,
              ttsCarry := [] },
     [Out.sessionStart g text])

/-- Binary branch of the `elWs.on('message')` closure of the session of
generation `g`: slice the chunk against the shared `ttsCarry`, store the
leftover, and forward every frame unless `!ttsPlaying` or the Twilio socket
is not open (the per-frame `forEach` guard reads only those two variables,
which do not change inside the loop, so it is all-or-nothing). The guard
does not mention `g`. -/
def elMessageAudio (s : St) (g : Nat) (chunk : List Nat) : St × List Out :=
  let r := sliceIntoUlaw20msFrames chunk s.ttsCarry
  let s := { s with ttsCarry := r.2 }
  if s.ttsPlaying = true ∧ s.twilioOpen = true then
    (s, r.1.map fun f => Out.frame g s.streamSid f)
  else
    (s, [])

/-- JSON branch of the `elWs.on('message')` closure: `error` and
`audio_stream_end` run `stopTTS()`, `audio_stream_start` and unknown types
only log. -/
def elMessageControl (s : St) (m : ELControl) : St × List Out :=
  match m with
  | .elError => (stopTTS s, [])
  | .streamStart => (s, [])
  | .streamEnd => (stopTTS s, [])
  | .other => (s, [])

/-- The `case 'media'` branch of `connection.on('message')`: barge-in stops
TTS first; then, when the OpenAI socket is open and configured, the payload
is appended, the byte counter grows by the decoded length and the silence
timer is rearmed; otherwise the frame is dropped with a logged notice. -/
def onTwilioMedia (s : St) (payload : List Nat) : St × List Out :=
  let s := if s.ttsPlaying = true then stopTTS s else s
  if s.openAiOpen = true ∧ s.openaiReady = true then
    let s := { s with collecting := true,
                      bytesBuffered := s.bytesBuffered + payload.length,
                      silenceTimer := true }
    (s, [Out.oaSend (.append payload)])
  else
    if s.openaiReady = false then
      (s, [Out.note "OpenAI not ready yet, buffering audio..."])
    else
      (s, [Out.warn "WebSocket not ready for audio."])

/-- `openAiWs.on('message')`: the cases of the handler that change state or
send. `session.updated` flips readiness and resets the buffer "for new
session"; `input_audio_buffer.committed` resets the buffer for the next
turn; `response.completed`/`response.done` extracts the output text and
hands a non-empty result to `speakWithEleven`; every other event only
logs. -/
def extractText (output : List OutputPart) : String :=
  jsTrim (String.intercalate " "
    ((output.filter fun p => p.partType = "output_text").map fun p => p.text))

def onOaEvent (s : St) (e : OAIEvent) : St × List Out :=
  match e with
  | .sessionUpdated =>
      ({ s with openaiReady := true, bytesBuffered := 0, collecting := false }, [])
  | .committed =>
      ({ s with bytesBuffered := 0, collecting := false }, [])
  | .responseDone output =>
      let text := extractText output
      if text = "" then (s, []) else speakWithEleven s text
  | _ => (s, [])

/-- External events delivered to this connection's handlers. `elChunk`,
`elControl`, `elClose` and `elWsError` carry the ghost generation of the
ElevenLabs socket whose closure receives them. -/
inductive Ev
  | oaWsOpen
  | twilioStart (sid : String)
  | twilioMedia (payload : List Nat)
  | twilioStop
  | twilioClose
  | oa (e : OAIEvent)
  | silenceExpire
  | elChunk (g : Nat) (chunk : List Nat)
  | elControl (g : Nat) (m : ELControl)
  | elClose (g : Nat)
  | elWsError (g : Nat)
deriving Repr, DecidableEq

/-- One handler invocation. The silence timer only fires while armed;
`'start'` records the stream id; `'stop'` only logs; connection close
closes the OpenAI socket, cancels the timer and runs `stopTTS()`; an
ElevenLabs `'close'`/`'error'` runs `endTTS()`. -/
def step (s : St) (e : Ev) : St × List Out :=
  match e with
  | .oaWsOpen => ({ s with openAiOpen := true }, [Out.oaSend .sessionUpdate])
  | .twilioStart sid => ({ s with streamSid := some sid }, [])
  | .twilioMedia p => onTwilioMedia s p
  | .twilioStop => (s, [])
  | .twilioClose =>
      (stopTTS { s with openAiOpen := false, silenceTimer := false }, [])
  | .oa e => onOaEvent s e
  | .silenceExpire => if s.silenceTimer = true then commitAudioBuffer s else (s, [])
  | .elChunk g chunk => elMessageAudio s g chunk
  | .elControl _ m => elMessageControl s m
  | .elClose _ => (endTTS s, [])
  | .elWsError _ => (endTTS s, [])

/-- Run a sequence of events from a state, collecting all outputs. -/
def run (s : St) (evs : List Ev) : St × List Out :=
  match evs with
  | [] => (s, [])
  | e :: rest =>
      let r := step s e
      let r2 := run r.1 rest
      (r2.1, r.2 ++ r2.2)

end IndexJs

namespace Part000

/-!
Embedding of `src/unnamed/part_000` (identical, in everything modelled
here, to the second listing of `src/index.js`): silence-timer commit with an
explicit `response.create`, `speakWithEleven(text, attempt)` gated on the
stream id with a bounded retry loop, and a `tryWelcome` poll that speaks a
welcome line once both sides are ready.
-/

/-- The welcome line spoken by `tryWelcome`. -/
def WELCOME : String :=
  "Hi, Saturn Star Movers—this is our virtual sales rep. How can I help today?"

/-- The per-connection mutable variables of `part_000`; field meanings as in
`IndexJs.St`, plus `textBuffer` accumulating `response.output_text.delta`
events. -/
structure St where
  streamSid : Option String
  openaiReady : Bool
  openAiOpen : Bool
  twilioOpen : Bool
  elevenWs : Option Nat
  ttsPlaying : Bool
  ttsCarry : List Nat
  bytesBuffered : Nat
  collecting : Bool
  silenceTimer : Bool
  textBuffer : String
  nextGen : Nat
deriving Repr, DecidableEq

/-- State at `'Client connected'`. -/
def init : St :=
  { streamSid := none
    openaiReady := false
    openAiOpen := false
    twilioOpen := true
    elevenWs := none
    ttsPlaying := false
    ttsCarry := []
    bytesBuffered := 0
    collecting := false
    silenceTimer := false
    textBuffer := ""
    nextGen := 0 }

/-- `stopTTS()`: clear the playing flag, reset the carry, close and drop the
ElevenLabs socket. All four TTS termination paths of this variant call
it. -/
def stopTTS (s : St) : St :=
  { s with ttsPlaying := false, ttsCarry := [], elevenWs := none }

/-- `speakWithEleven(text, attempt)`: refuse blank text; while the stream id
is unknown or the Twilio socket is not open, schedule a 100 ms retry up to
20 attempts and then give up with a warning; refuse while TTS is already
playing; otherwise replace any existing ElevenLabs socket with a fresh one
(generation `s.nextGen`), set `ttsPlaying` and clear the carry. -/
def speakWithEleven (s : St) (text : String) (attempt : Nat) : St × List Out :=
  if text = "" ∨ jsTrim text = "" then
    (s, [])
  else if s.streamSid = none ∨ s.twilioOpen = false then
    if attempt < 20 then
      (s, [Out.retrySpeak text (attempt + 1)])
    else
      (s, [Out.warn "No streamSid or Twilio WS not open; skipping TTS."])
  else if s.ttsPlaying = true then
    (s, [])
  else
    let g := s.nextGen
    ({ s with elevenWs := some g, nextGen := g + 1, ttsPlaying := true,
              ttsCarry := [] },
     [Out.sessionStart g text])

/-- `tryWelcome(attempt)`: speak the welcome line once OpenAI is configured,
the stream id is known and the Twilio socket is open; otherwise poll again
after 100 ms, up to 20 attempts, then give up silently. -/
def tryWelcome (s : St) (attempt : Nat) : St × List Out :=
  if s.openaiReady = true ∧ s.streamSid ≠ none ∧ s.twilioOpen = true then
    speakWithEleven s WELCOME 0
  else if attempt < 20 then
    (s, [Out.retryWelcome (attempt + 1)])
  else
    (s, [])

/-- Binary branch of the `'message'` closure of the ElevenLabs socket of
generation `g`: slice against the shared carry, store the leftover, and
forward the frames unless the for-loop guard (`!ttsPlaying`, Twilio socket
not open, or no stream id) breaks out first; the guard reads only variables
that do not change inside the loop, so it is all-or-nothing, and it does
not mention `g`. -/
def elMessageAudio (s : St) (g : Nat) (chunk : List Nat) : St × List Out :=
  let r := sliceIntoUlaw20msFrames chunk s.ttsCarry
  let s := { s with ttsCarry := r.2 }
  if s.ttsPlaying = true ∧ s.twilioOpen = true ∧ s.streamSid ≠ none then
    (s, r.1.map fun f => Out.frame g s.streamSid f)
  else
    (s, [])

/-- JSON branch of the `'message'` closure: `error` and `audio_stream_end`
run `stopTTS()`; every other JSON control is ignored. -/
def elMessageControl (s : St) (m : ELControl) : St × List Out :=
  match m with
  | .elError => (stopTTS s, [])
  | .streamEnd => (stopTTS s, [])
  | _ => (s, [])

/-- `commitAudioBuffer()`: clear the silence timer; return silently when
fewer than `MIN_FRAMES_TO_COMMIT` whole frames are buffered or the OpenAI
session is not open and configured; otherwise send
`input_audio_buffer.commit` followed by `response.create`, leaving the
byte counter for the `committed` acknowledgement to reset. -/
def commitAudioBuffer (s : St) : St × List Out :=
  let s := { s with silenceTimer := false }
  if s.bytesBuffered / FRAME_BYTES < MIN_FRAMES then
    (s, [])
  else if s.openAiOpen = false ∨ s.openaiReady = false then
    (s, [])
  else
    (s, [Out.oaSend .commit, Out.oaSend .responseCreate])

/-- `openAiWs.on('message')`: `session.updated` flips readiness and polls
the welcome; text deltas accumulate in `textBuffer`;
`input_audio_buffer.committed` is the point where the byte counter is
reset; `response.completed`/`response.done` extracts the full text (falling
back to the delta buffer), clears the delta buffer and speaks a non-empty
result. -/
def onOaEvent (s : St) (e : OAIEvent) : St × List Out :=
  match e with
  | .sessionUpdated => tryWelcome { s with openaiReady := true } 0
  | .outputTextDelta d => ({ s with textBuffer := s.textBuffer ++ d }, [])
  | .committed => ({ s with bytesBuffered := 0, collecting := false }, [])
  | .responseDone output =>
      let fullText := IndexJs.extractText output
      let toSpeak := if fullText = "" then jsTrim s.textBuffer else fullText
      let s := { s with textBuffer := "" }
      if toSpeak = "" then (s, []) else speakWithEleven s toSpeak 0
  | _ => (s, [])

/-- The `case 'media'` branch of the Twilio `'message'` handler: barge-in
stops TTS first; then, when the OpenAI socket is open and configured, the
payload is appended, the byte counter grows by the decoded length and the
silence timer is rearmed; otherwise the frame is silently skipped (this
variant logs nothing there). -/
def onTwilioMedia (s : St) (payload : List Nat) : St × List Out :=
  let s := if s.ttsPlaying = true then stopTTS s else s
  if s.openAiOpen = true ∧ s.openaiReady = true then
    let s := { s with collecting := true,
                      bytesBuffered := s.bytesBuffered + payload.length,
                      silenceTimer := true }
    (s, [Out.oaSend (.append payload)])
  else
    (s, [])

/-- External events delivered to this connection's handlers; `retrySpeakAt`
and `retryWelcomeAt` are the scheduled 100 ms callbacks firing. -/
inductive Ev
  | oaWsOpen
  | twilioStart (sid : String)
  | twilioMedia (payload : List Nat)
  | twilioStop
  | twilioClose
  | oa (e : OAIEvent)
  | silenceExpire
  | elChunk (g : Nat) (chunk : List Nat)
  | elControl (g : Nat) (m : ELControl)
  | elClose (g : Nat)
  | elWsError (g : Nat)
  | retrySpeakAt (text : String) (attempt : Nat)
  | retryWelcomeAt (attempt : Nat)
deriving Repr, DecidableEq

/-- One handler invocation of `part_000`. `'start'` records the stream id
and polls the welcome; an ElevenLabs `'close'`/`'error'` runs `stopTTS()`
(the shared cleanup), as do the error and stream-end messages. -/
def step (s : St) (e : Ev) : St × List Out :=
  match e with
  | .oaWsOpen => ({ s with openAiOpen := true }, [Out.oaSend .sessionUpdate])
  | .twilioStart sid => tryWelcome { s with streamSid := some sid } 0
  | .twilioMedia p => onTwilioMedia s p
  | .twilioStop => (s, [])
  | .twilioClose =>
      (stopTTS { s with openAiOpen := false, silenceTimer := false }, [])
  | .oa e => onOaEvent s e
  | .silenceExpire => if s.silenceTimer = true then commitAudioBuffer s else (s, [])
  | .elChunk g chunk => elMessageAudio s g chunk
  | .elControl _ m => elMessageControl s m
  | .elClose _ => (stopTTS s, [])
  | .elWsError _ => (stopTTS s, [])
  | .retrySpeakAt t a => speakWithEleven s t a
  | .retryWelcomeAt a => tryWelcome s a

/-- Run a sequence of events from a state, collecting all outputs. -/
def run (s : St) (evs : List Ev) : St × List Out :=
  match evs with
  | [] => (s, [])
  | e :: rest =>
      let r := step s e
      let r2 := run r.1 rest
      (r2.1, r.2 ++ r2.2)

end Part000

namespace Part001

/-!
Embedding of `src/unnamed/part_001`: no local TTS and no silence timer;
OpenAI audio deltas are relayed straight to Twilio, and the commit decision
is taken inside the `input_audio_buffer.speech_stopped` handler, which
always resets the byte counter afterwards.
-/

/-- The per-connection mutable variables of `part_001`. -/
structure St where
  streamSid : Option String
  openaiReady : Bool
  openAiOpen : Bool
  bytesBuffered : Nat
  collecting : Bool
deriving Repr, DecidableEq

/-- State at `'Client connected'`. -/
def init : St :=
  { streamSid := none
    openaiReady := false
    openAiOpen := false
    bytesBuffered := 0
    collecting := false }

/-- `openAiWs.on('message')`: `session.updated` flips readiness and resets
the buffer; `response.audio.delta` is relayed to Twilio as a media frame;
`input_audio_buffer.speech_stopped` commits (plus `response.create`) when
at least `MIN_FRAMES` whole frames are buffered, skips silently otherwise,
and in either case resets the byte counter "for next turn";
`input_audio_buffer.committed` is merely logged. -/
def onOaEvent (s : St) (e : OAIEvent) : St × List Out :=
  match e with
  | .sessionUpdated =>
      ({ s with openaiReady := true, bytesBuffered := 0, collecting := false }, [])
  | .audioDelta p => (s, [Out.frame 0 s.streamSid p])
  | .speechStopped =>
      let frames := s.bytesBuffered / FRAME_BYTES
      let outs : List Out :=
        if MIN_FRAMES ≤ frames then
          [Out.oaSend .commit, Out.oaSend .responseCreate]
        else
          []
      ({ s with bytesBuffered := 0, collecting := false }, outs)
  | _ => (s, [])

/-- The `case 'media'` branch of the Twilio `'message'` handler: when the
OpenAI socket is open and configured, append the payload and grow the byte
counter by the decoded length; otherwise drop the frame with a logged
notice. -/
def onTwilioMedia (s : St) (payload : List Nat) : St × List Out :=
  if s.openAiOpen = true ∧ s.openaiReady = true then
    ({ s with collecting := true,
              bytesBuffered := s.bytesBuffered + payload.length },
     [Out.oaSend (.append payload)])
  else
    if s.openaiReady = false then
      (s, [Out.note "OpenAI not ready yet, buffering audio..."])
    else
      (s, [Out.warn "WebSocket not ready for audio."])

/-- External events delivered to this connection's handlers. -/
inductive Ev
  | oaWsOpen
  | twilioStart (sid : String)
  | twilioMedia (payload : List Nat)
  | twilioStop
  | twilioClose
  | oa (e : OAIEvent)
deriving Repr, DecidableEq

/-- One handler invocation of `part_001`. -/
def step (s : St) (e : Ev) : St × List Out :=
  match e with
  | .oaWsOpen => ({ s with openAiOpen := true }, [Out.oaSend .sessionUpdate])
  | .twilioStart sid => ({ s with streamSid := some sid }, [])
  | .twilioMedia p => onTwilioMedia s p
  | .twilioStop => (s, [])
  | .twilioClose => ({ s with openAiOpen := false }, [])
  | .oa e => onOaEvent s e

/-- Run a sequence of events from a state, collecting all outputs. -/
def run (s : St) (evs : List Ev) : St × List Out :=
  match evs with
  | [] => (s, [])
  | e :: rest =>
      let r := step s e
      let r2 := run r.1 rest
      (r2.1, r.2 ++ r2.2)

end Part001

section OutLemmas

@[simp] theorem oaMsgs_nil : oaMsgs [] = [] := rfl

@[simp] theorem oaMsgs_oaSend_cons (m : OAIMsg) (l : List Out) :
    oaMsgs (Out.oaSend m :: l) = m :: oaMsgs l := rfl

@[simp] theorem oaMsgs_frame_cons (g : Nat) (sid : Option String)
    (p : List Nat) (l : List Out) :
    oaMsgs (Out.frame g sid p :: l) = oaMsgs l := rfl

@[simp] theorem oaMsgs_warn_cons (w : String) (l : List Out) :
    oaMsgs (Out.warn w :: l) = oaMsgs l := rfl

@[simp] theorem oaMsgs_note_cons (w : String) (l : List Out) :
    oaMsgs (Out.note w :: l) = oaMsgs l := rfl

@[simp] theorem oaMsgs_retrySpeak_cons (t : String) (a : Nat) (l : List Out) :
    oaMsgs (Out.retrySpeak t a :: l) = oaMsgs l := rfl

@[simp] theorem oaMsgs_retryWelcome_cons (a : Nat) (l : List Out) :
    oaMsgs (Out.retryWelcome a :: l) = oaMsgs l := rfl

@[simp] theorem oaMsgs_sessionStart_cons (g : Nat) (t : String) (l : List Out) :
    oaMsgs (Out.sessionStart g t :: l) = oaMsgs l := rfl

@[simp] theorem oaMsgs_frames_map (g : Nat) (sid : Option String)
    (fs : List (List Nat)) :
    oaMsgs (fs.map fun f => Out.frame g sid f) = [] := by
  induction fs with
  | nil => rfl
  | cons f fs ih => simpa using ih

@[simp] theorem appendsOf_nil : appendsOf [] = [] := rfl

@[simp] theorem appendsOf_oaSend_cons (m : OAIMsg) (l : List Out) :
    appendsOf (Out.oaSend m :: l) =
      (match m with | .append a => [a] | _ => []) ++ appendsOf l := by
  cases m <;> rfl

@[simp] theorem appendsOf_frame_cons (g : Nat) (sid : Option String)
    (p : List Nat) (l : List Out) :
    appendsOf (Out.frame g sid p :: l) = appendsOf l := rfl

@[simp] theorem appendsOf_warn_cons (w : String) (l : List Out) :
    appendsOf (Out.warn w :: l) = appendsOf l := rfl

@[simp] theorem appendsOf_note_cons (w : String) (l : List Out) :
    appendsOf (Out.note w :: l) = appendsOf l := rfl

@[simp] theorem appendsOf_retrySpeak_cons (t : String) (a : Nat) (l : List Out) :
    appendsOf (Out.retrySpeak t a :: l) = appendsOf l := rfl

@[simp] theorem appendsOf_retryWelcome_cons (a : Nat) (l : List Out) :
    appendsOf (Out.retryWelcome a :: l) = appendsOf l := rfl

@[simp] theorem appendsOf_sessionStart_cons (g : Nat) (t : String) (l : List Out) :
    appendsOf (Out.sessionStart g t :: l) = appendsOf l := rfl

@[simp] theorem appendsOf_frames_map (g : Nat) (sid : Option String)
    (fs : List (List Nat)) :
    appendsOf (fs.map fun f => Out.frame g sid f) = [] := by
  induction fs with
  | nil => rfl
  | cons f fs ih => simpa using ih

@[simp] theorem appendsOf_append (l₁ l₂ : List Out) :
    appendsOf (l₁ ++ l₂) = appendsOf l₁ ++ appendsOf l₂ := by
  simp [appendsOf]

@[simp] theorem framesOf_nil : framesOf [] = [] := rfl

@[simp] theorem framesOf_oaSend_cons (m : OAIMsg) (l : List Out) :
    framesOf (Out.oaSend m :: l) = framesOf l := rfl

@[simp] theorem framesOf_frame_cons (g : Nat) (sid : Option String)
    (p : List Nat) (l : List Out) :
    framesOf (Out.frame g sid p :: l) = (g, sid, p) :: framesOf l := rfl

@[simp] theorem framesOf_warn_cons (w : String) (l : List Out) :
    framesOf (Out.warn w :: l) = framesOf l := rfl

@[simp] theorem framesOf_note_cons (w : String) (l : List Out) :
    framesOf (Out.note w :: l) = framesOf l := rfl

@[simp] theorem framesOf_retrySpeak_cons (t : String) (a : Nat) (l : List Out) :
    framesOf (Out.retrySpeak t a :: l) = framesOf l := rfl

@[simp] theorem framesOf_retryWelcome_cons (a : Nat) (l : List Out) :
    framesOf (Out.retryWelcome a :: l) = framesOf l := rfl

@[simp] theorem framesOf_sessionStart_cons (g : Nat) (t : String) (l : List Out) :
    framesOf (Out.sessionStart g t :: l) = framesOf l := rfl

@[simp] theorem framesOf_append (l₁ l₂ : List Out) :
    framesOf (l₁ ++ l₂) = framesOf l₁ ++ framesOf l₂ := by
  simp [framesOf]

end OutLemmas


/-- C3: in every variant, `input_audio_buffer.commit` is sent only when at
least `MIN_FRAMES * FRAME_BYTES = 960` bytes (6 frames, 120 ms) are
buffered; and five frames (800 bytes) followed by a silence-timer expiry
produce no output at all — no commit and no error, the sub-threshold window
is skipped with nothing but console logs. -/
theorem C3_commit_threshold :
    (∀ (s : IndexJs.St) (e : IndexJs.Ev),
        OAIMsg.commit ∈ oaMsgs (IndexJs.step s e).2 →
        MIN_FRAMES * FRAME_BYTES ≤ s.bytesBuffered) ∧
    (∀ (s : Part000.St) (e : Part000.Ev),
        OAIMsg.commit ∈ oaMsgs (Part000.step s e).2 →
        MIN_FRAMES * FRAME_BYTES ≤ s.bytesBuffered) ∧
    (∀ (s : Part001.St) (e : Part001.Ev),
        OAIMsg.commit ∈ oaMsgs (Part001.step s e).2 →
        MIN_FRAMES * FRAME_BYTES ≤ s.bytesBuffered) ∧
    (∀ s : IndexJs.St, s.bytesBuffered = 5 * FRAME_BYTES →
        (IndexJs.step s .silenceExpire).2 = []) ∧
    (∀ s : Part000.St, s.bytesBuffered = 5 * FRAME_BYTES →
        (Part000.step s .silenceExpire).2 = []) := by
  refine ⟨?_, ?_, ?_, ?_, ?_⟩
  · intro s e h
    cases e
    case silenceExpire =>
      simp only [IndexJs.step, IndexJs.commitAudioBuffer] at h
      split_ifs at h with h1 h2 h3
      · simp_all
      · simp only [MIN_FRAMES, FRAME_BYTES] at h3 ⊢
        omega
      · simp_all
      · simp_all
    case twilioMedia p =>
      simp only [IndexJs.step, IndexJs.onTwilioMedia] at h
      split_ifs at h <;> simp_all
    case oa e' =>
      cases e'
      case responseDone output =>
        simp only [IndexJs.step, IndexJs.onOaEvent, IndexJs.speakWithEleven] at h
        split_ifs at h <;> simp_all
      all_goals simp_all [IndexJs.step, IndexJs.onOaEvent]
    case elChunk g c =>
      simp only [IndexJs.step, IndexJs.elMessageAudio] at h
      split_ifs at h <;> simp_all
    case elControl g m =>
      cases m <;> simp_all [IndexJs.step, IndexJs.elMessageControl, IndexJs.stopTTS]
    all_goals simp_all [IndexJs.step, IndexJs.stopTTS, IndexJs.endTTS]
  · intro s e h
    cases e
    case silenceExpire =>
      simp only [Part000.step, Part000.commitAudioBuffer] at h
      split_ifs at h with h1 h2 h3
      · simp_all
      · simp_all
      · simp only [MIN_FRAMES, FRAME_BYTES] at h2 ⊢
        omega
      · simp_all
    case twilioMedia p =>
      simp only [Part000.step, Part000.onTwilioMedia] at h
      split_ifs at h <;> simp_all
    case twilioStart sid =>
      simp only [Part000.step, Part000.tryWelcome, Part000.speakWithEleven] at h
      split_ifs at h <;> simp_all
    case oa e' =>
      cases e'
      case responseDone output =>
        simp only [Part000.step, Part000.onOaEvent, Part000.speakWithEleven] at h
        split_ifs at h <;> simp_all
      case sessionUpdated =>
        simp only [Part000.step, Part000.onOaEvent, Part000.tryWelcome,
          Part000.speakWithEleven] at h
        split_ifs at h <;> simp_all
      all_goals simp_all [Part000.step, Part000.onOaEvent]
    case elChunk g c =>
      simp only [Part000.step, Part000.elMessageAudio] at h
      split_ifs at h <;> simp_all
    case elControl g m =>
      cases m <;> simp_all [Part000.step, Part000.elMessageControl, Part000.stopTTS]
    case retrySpeakAt t a =>
      simp only [Part000.step, Part000.speakWithEleven] at h
      split_ifs at h <;> simp_all
    case retryWelcomeAt a =>
      simp only [Part000.step, Part000.tryWelcome, Part000.speakWithEleven] at h
      split_ifs at h <;> simp_all
    all_goals simp_all [Part000.step, Part000.stopTTS]
  · intro s e h
    cases e
    case oa e' =>
      cases e'
      case speechStopped =>
        simp only [Part001.step, Part001.onOaEvent] at h
        split_ifs at h with h1
        · simp only [MIN_FRAMES, FRAME_BYTES] at h1 ⊢
          omega
        · simp_all
      all_goals simp_all [Part001.step, Part001.onOaEvent]
    case twilioMedia p =>
      simp only [Part001.step, Part001.onTwilioMedia] at h
      split_ifs at h <;> simp_all
    all_goals simp_all [Part001.step]
  · intro s h
    simp only [IndexJs.step, IndexJs.commitAudioBuffer]
    split_ifs with h1 h2 h3
    · rfl
    · exfalso
      simp only [MIN_FRAMES, FRAME_BYTES] at h h3
      omega
    · rfl
    · rfl
  · intro s h
    simp only [Part000.step, Part000.commitAudioBuffer]
    split_ifs with h1 h2 h3
    · rfl
    · rfl
    · exfalso
      simp only [MIN_FRAMES, FRAME_BYTES] at h h2
      omega
    · rfl

/-- Concrete state for the C3 witness: ten-frame-threshold met. -/
def c3s1 : IndexJs.St :=
  { IndexJs.init with bytesBuffered := 960, silenceTimer := true, openAiOpen := true }

/-- Concrete state for the C3 witness: five frames buffered. -/
def c3s2 : IndexJs.St :=
  { IndexJs.init with bytesBuffered := 800, silenceTimer := true, openAiOpen := true }

theorem C3_commit_threshold_witness :
    MIN_FRAMES * FRAME_BYTES ≤ c3s1.bytesBuffered ∧
    (IndexJs.step c3s2 .silenceExpire).2 = [] :=
  ⟨C3_commit_threshold.1 c3s1 .silenceExpire (by decide),
   C3_commit_threshold.2.2.2.1 c3s2 (by decide)⟩

/-- C10: a non-empty response text arriving while TTS is already playing is
silently dropped: `speakWithEleven` returns without opening a session,
touching the active one, or changing any per-call state — in the first
`index.js` listing unconditionally, and in `part_000` whenever the stream
id is known and the Twilio socket open (which is how a playing session got
started in the first place). -/
theorem C10_busy_speak_dropped :
    (∀ (s : IndexJs.St) (t : String), s.ttsPlaying = true →
        IndexJs.speakWithEleven s t = (s, [])) ∧
    (∀ (s : IndexJs.St) (output : List OutputPart), s.ttsPlaying = true →
        IndexJs.step s (.oa (.responseDone output)) = (s, [])) ∧
    (∀ (s : Part000.St) (t : String) (a : Nat), s.ttsPlaying = true →
        s.streamSid ≠ none → s.twilioOpen = true →
        Part000.speakWithEleven s t a = (s, [])) := by
  refine ⟨?_, ?_, ?_⟩
  · intro s t h
    simp [IndexJs.speakWithEleven, h]
  · intro s output h
    simp only [IndexJs.step, IndexJs.onOaEvent]
    split_ifs with h1
    · rfl
    · simp [IndexJs.speakWithEleven, h]
  · intro s t a h hsid hopen
    simp only [Part000.speakWithEleven]
    split_ifs <;> simp_all

def c10sA : IndexJs.St := { IndexJs.init with ttsPlaying := true }

def c10sB : Part000.St :=
  { Part000.init with ttsPlaying := true, streamSid := some "CA123" }

theorem C10_busy_speak_dropped_witness :
    IndexJs.speakWithEleven c10sA "Hello" = (c10sA, []) ∧
    IndexJs.step c10sA (.oa (.responseDone [⟨"output_text", "Hello"⟩])) = (c10sA, []) ∧
    Part000.speakWithEleven c10sB "Hello" 0 = (c10sB, []) :=
  ⟨C10_busy_speak_dropped.1 c10sA "Hello" rfl,
   C10_busy_speak_dropped.2.1 c10sA [⟨"output_text", "Hello"⟩] rfl,
   C10_busy_speak_dropped.2.2 c10sB "Hello" 0 rfl (by decide) rfl⟩

/-- Any event other than `session.updated` leaves an unconfigured session
unconfigured and sends no audio append (first `index.js` listing). -/
theorem indexJs_step_not_ready (s : IndexJs.St) (e : IndexJs.Ev)
    (hr : s.openaiReady = false) (he : e ≠ .oa .sessionUpdated) :
    (IndexJs.step s e).1.openaiReady = false ∧
    appendsOf (IndexJs.step s e).2 = [] := by
  cases e
  case twilioMedia p =>
    simp only [IndexJs.step, IndexJs.onTwilioMedia, IndexJs.stopTTS]
    split_ifs <;> simp_all
  case oa e' =>
    cases e'
    case sessionUpdated => exact absurd rfl he
    case responseDone output =>
      simp only [IndexJs.step, IndexJs.onOaEvent, IndexJs.speakWithEleven]
      split_ifs <;> simp_all
    all_goals simp_all [IndexJs.step, IndexJs.onOaEvent]
  case silenceExpire =>
    simp only [IndexJs.step, IndexJs.commitAudioBuffer]
    split_ifs <;> simp_all
  case elChunk g c =>
    simp only [IndexJs.step, IndexJs.elMessageAudio]
    split_ifs <;> simp_all
  case elControl g m =>
    cases m <;> simp_all [IndexJs.step, IndexJs.elMessageControl, IndexJs.stopTTS]
  all_goals simp_all [IndexJs.step, IndexJs.stopTTS, IndexJs.endTTS]

/-- Over a whole event sequence without `session.updated`, readiness stays
false and no append is ever sent (first `index.js` listing). -/
theorem indexJs_run_no_append (evs : List IndexJs.Ev)
    (h : IndexJs.Ev.oa .sessionUpdated ∉ evs) :
    ∀ s : IndexJs.St, s.openaiReady = false →
      (IndexJs.run s evs).1.openaiReady = false ∧
      appendsOf (IndexJs.run s evs).2 = [] := by
  induction evs with
  | nil => intro s hs; simpa [IndexJs.run] using hs
  | cons e rest ih =>
      intro s hs
      have he : e ≠ .oa .sessionUpdated := fun hh => h (hh ▸ List.mem_cons_self e rest)
      have hstep := indexJs_step_not_ready s e hs he
      have hrest := ih (fun hh => h (List.mem_cons_of_mem e hh)) _ hstep.1
      simp only [IndexJs.run]
      exact ⟨hrest.1, by simp [appendsOf_append, hstep.2, hrest.2]⟩

/-- Same step lemma for `part_001`. -/
theorem part001_step_not_ready (s : Part001.St) (e : Part001.Ev)
    (hr : s.openaiReady = false) (he : e ≠ .oa .sessionUpdated) :
    (Part001.step s e).1.openaiReady = false ∧
    appendsOf (Part001.step s e).2 = [] := by
  cases e
  case twilioMedia p =>
    simp only [Part001.step, Part001.onTwilioMedia]
    split_ifs <;> simp_all
  case oa e' =>
    cases e'
    case sessionUpdated => exact absurd rfl he
    case speechStopped =>
      simp only [Part001.step, Part001.onOaEvent]
      split_ifs <;> simp_all
    all_goals simp_all [Part001.step, Part001.onOaEvent]
  all_goals simp_all [Part001.step]

/-- Same run lemma for `part_001`. -/
theorem part001_run_no_append (evs : List Part001.Ev)
    (h : Part001.Ev.oa .sessionUpdated ∉ evs) :
    ∀ s : Part001.St, s.openaiReady = false →
      (Part001.run s evs).1.openaiReady = false ∧
      appendsOf (Part001.run s evs).2 = [] := by
  induction evs with
  | nil => intro s hs; simpa [Part001.run] using hs
  | cons e rest ih =>
      intro s hs
      have he : e ≠ .oa .sessionUpdated := fun hh => h (hh ▸ List.mem_cons_self e rest)
      have hstep := part001_step_not_ready s e hs he
      have hrest := ih (fun hh => h (List.mem_cons_of_mem e hh)) _ hstep.1
      simp only [Part001.run]
      exact ⟨hrest.1, by simp [appendsOf_append, hstep.2, hrest.2]⟩

/-- C8: no `input_audio_buffer.append` is ever sent before `session.updated`
has been received — over any event sequence from the initial state that
contains no `session.updated`, zero appends are emitted — and a media frame
arriving while the session is not ready causes no append, leaves the byte
counter untouched, and is dropped with the logged notice; this holds in
both cited variants (first `index.js` listing and `part_001`). -/
theorem C8_no_append_before_ready :
    (∀ evs : List IndexJs.Ev, IndexJs.Ev.oa .sessionUpdated ∉ evs →
        appendsOf (IndexJs.run IndexJs.init evs).2 = []) ∧
    (∀ (s : IndexJs.St) (p : List Nat), s.openaiReady = false →
        appendsOf (IndexJs.step s (.twilioMedia p)).2 = [] ∧
        (IndexJs.step s (.twilioMedia p)).1.bytesBuffered = s.bytesBuffered ∧
        Out.note "OpenAI not ready yet, buffering audio..."
          ∈ (IndexJs.step s (.twilioMedia p)).2) ∧
    (∀ evs : List Part001.Ev, Part001.Ev.oa .sessionUpdated ∉ evs →
        appendsOf (Part001.run Part001.init evs).2 = []) ∧
    (∀ (s : Part001.St) (p : List Nat), s.openaiReady = false →
        appendsOf (Part001.step s (.twilioMedia p)).2 = [] ∧
        (Part001.step s (.twilioMedia p)).1.bytesBuffered = s.bytesBuffered ∧
        Out.note "OpenAI not ready yet, buffering audio..."
          ∈ (Part001.step s (.twilioMedia p)).2) := by
  refine ⟨?_, ?_, ?_, ?_⟩
  · intro evs h
    exact (indexJs_run_no_append evs h IndexJs.init rfl).2
  · intro s p h
    simp only [IndexJs.step, IndexJs.onTwilioMedia, IndexJs.stopTTS]
    split_ifs <;> simp_all
  · intro evs h
    exact (part001_run_no_append evs h Part001.init rfl).2
  · intro s p h
    simp only [Part001.step, Part001.onTwilioMedia]
    split_ifs <;> simp_all

def c8Evs : List IndexJs.Ev :=
  [.oaWsOpen, .twilioStart "CA123", .twilioMedia [1, 2, 3]]

theorem C8_no_append_before_ready_witness :
    appendsOf (IndexJs.run IndexJs.init c8Evs).2 = [] ∧
    Out.note "OpenAI not ready yet, buffering audio..."
      ∈ (IndexJs.step IndexJs.init (.twilioMedia [1, 2, 3])).2 :=
  ⟨C8_no_append_before_ready.1 c8Evs (by decide),
   (C8_no_append_before_ready.2.1 IndexJs.init [1, 2, 3] rfl).2.2⟩

/-- State of `part_001` after configuration and five frames (800 bytes) of
caller audio. -/
def c1Pre : Part001.St :=
  (Part001.run Part001.init
    [.oaWsOpen, .oa .sessionUpdated, .twilioMedia (List.replicate 800 3)]).1

set_option maxRecDepth 10000 in
/-- C1 counterexample: in `part_001`, after five frames (800 bytes) of
caller audio, the `speech_stopped` handler resets `bytesBuffered` to zero
without any `input_audio_buffer.committed` having arrived and without even
sending a commit — the buffered audio is discarded, refuting "reset to zero
only upon receipt of `input_audio_buffer.committed`, never at any other
point". -/
theorem C1_counterexample :
    c1Pre.bytesBuffered = 800 ∧
    (Part001.step c1Pre (.oa .speechStopped)).1.bytesBuffered = 0 ∧
    (Part001.step c1Pre (.oa .speechStopped)).2 = [] := by
  refine ⟨?_, ?_, ?_⟩ <;>
    simp [c1Pre, Part001.run, Part001.step, Part001.onOaEvent,
      Part001.onTwilioMedia, Part001.init, MIN_FRAMES, FRAME_BYTES]

/-- C1 amended: in the `part_000` listing the byte counter is reset only on
`input_audio_buffer.committed`; in the first `index.js` listing only on
`committed` or on `session.updated` (plus, outside this model, on a
commit-send exception); in `part_001` only on `session.updated` or
unconditionally on every `speech_stopped`. In both silence-timer variants
sending the commit itself never changes the counter, so audio appended
between a commit request and its acknowledgement stays counted. -/
theorem C1_amended :
    (∀ (s : Part000.St) (e : Part000.Ev),
        (Part000.step s e).1.bytesBuffered = 0 → 0 < s.bytesBuffered →
        e = .oa .committed) ∧
    (∀ s : Part000.St,
        (Part000.step s .silenceExpire).1.bytesBuffered = s.bytesBuffered) ∧
    (∀ (s : IndexJs.St) (e : IndexJs.Ev),
        (IndexJs.step s e).1.bytesBuffered = 0 → 0 < s.bytesBuffered →
        e = .oa .committed ∨ e = .oa .sessionUpdated) ∧
    (∀ s : IndexJs.St,
        (IndexJs.step s .silenceExpire).1.bytesBuffered = s.bytesBuffered) ∧
    (∀ (s : Part001.St) (e : Part001.Ev),
        (Part001.step s e).1.bytesBuffered = 0 → 0 < s.bytesBuffered →
        e = .oa .sessionUpdated ∨ e = .oa .speechStopped) := by
  refine ⟨?_, ?_, ?_, ?_, ?_⟩
  · intro s e h1 h2
    cases e
    case oa e' =>
      cases e'
      case committed => rfl
      case sessionUpdated =>
        exfalso
        simp only [Part000.step, Part000.onOaEvent, Part000.tryWelcome,
          Part000.speakWithEleven] at h1
        split_ifs at h1 <;> simp_all
      case responseDone output =>
        exfalso
        simp only [Part000.step, Part000.onOaEvent, Part000.speakWithEleven] at h1
        split_ifs at h1 <;> simp_all
      all_goals (exfalso; simp_all [Part000.step, Part000.onOaEvent])
    case twilioMedia p =>
      exfalso
      simp only [Part000.step, Part000.onTwilioMedia, Part000.stopTTS] at h1
      split_ifs at h1 <;> simp_all
    case twilioStart sid =>
      exfalso
      simp only [Part000.step, Part000.tryWelcome, Part000.speakWithEleven] at h1
      split_ifs at h1 <;> simp_all
    case silenceExpire =>
      exfalso
      simp only [Part000.step, Part000.commitAudioBuffer] at h1
      split_ifs at h1 <;> simp_all
    case elChunk g c =>
      exfalso
      simp only [Part000.step, Part000.elMessageAudio] at h1
      split_ifs at h1 <;> simp_all
    case elControl g m =>
      exfalso
      cases m <;> simp_all [Part000.step, Part000.elMessageControl, Part000.stopTTS]
    case retrySpeakAt t a =>
      exfalso
      simp only [Part000.step, Part000.speakWithEleven] at h1
      split_ifs at h1 <;> simp_all
    case retryWelcomeAt a =>
      exfalso
      simp only [Part000.step, Part000.tryWelcome, Part000.speakWithEleven] at h1
      split_ifs at h1 <;> simp_all
    all_goals (exfalso; simp_all [Part000.step, Part000.stopTTS])
  · intro s
    simp only [Part000.step, Part000.commitAudioBuffer]
    split_ifs <;> rfl
  · intro s e h1 h2
    cases e
    case oa e' =>
      cases e'
      case committed => exact Or.inl rfl
      case sessionUpdated => exact Or.inr rfl
      case responseDone output =>
        exfalso
        simp only [IndexJs.step, IndexJs.onOaEvent, IndexJs.speakWithEleven] at h1
        split_ifs at h1 <;> simp_all
      all_goals (exfalso; simp_all [IndexJs.step, IndexJs.onOaEvent])
    case twilioMedia p =>
      exfalso
      simp only [IndexJs.step, IndexJs.onTwilioMedia, IndexJs.stopTTS] at h1
      split_ifs at h1 <;> simp_all
    case silenceExpire =>
      exfalso
      simp only [IndexJs.step, IndexJs.commitAudioBuffer] at h1
      split_ifs at h1 <;> simp_all
    case elChunk g c =>
      exfalso
      simp only [IndexJs.step, IndexJs.elMessageAudio] at h1
      split_ifs at h1 <;> simp_all
    case elControl g m =>
      exfalso
      cases m <;> simp_all [IndexJs.step, IndexJs.elMessageControl, IndexJs.stopTTS]
    all_goals (exfalso; simp_all [IndexJs.step, IndexJs.stopTTS, IndexJs.endTTS])
  · intro s
    simp only [IndexJs.step, IndexJs.commitAudioBuffer]
    split_ifs <;> rfl
  · intro s e h1 h2
    cases e
    case oa e' =>
      cases e'
      case sessionUpdated => exact Or.inl rfl
      case speechStopped => exact Or.inr rfl
      all_goals (exfalso; simp_all [Part001.step, Part001.onOaEvent])
    case twilioMedia p =>
      exfalso
      simp only [Part001.step, Part001.onTwilioMedia] at h1
      split_ifs at h1 <;> simp_all
    all_goals (exfalso; simp_all [Part001.step])

def c1CommitState : Part000.St := { Part000.init with bytesBuffered := 960 }

/-- C1 witness: the amended theorem applied at a concrete 6-frame state. -/
theorem C1_amended_witness :
    ((Part000.step c1CommitState (.oa .committed)).1.bytesBuffered = 0 →
        0 < c1CommitState.bytesBuffered →
        Part000.Ev.oa .committed = .oa .committed) ∧
    (Part000.step c1CommitState .silenceExpire).1.bytesBuffered =
      c1CommitState.bytesBuffered :=
  ⟨C1_amended.1 c1CommitState (.oa .committed), C1_amended.2.1 c1CommitState⟩

def c5Pre : IndexJs.St :=
  { IndexJs.init with
    streamSid := some "CA123"
    openaiReady := true
    openAiOpen := true
    bytesBuffered := 1600
    collecting := true
    silenceTimer := true }

/-- C5 counterexample: in the first `index.js` listing, a silence-timer
expiry with ten frames buffered and the session open sends exactly one
commit and no explicit response-request at all (`create_response: true`
delegates response generation to the server), refuting "exactly one
explicit response-request message". -/
theorem C5_counterexample :
    oaMsgs (IndexJs.step c5Pre .silenceExpire).2 = [OAIMsg.commit] ∧
    OAIMsg.responseCreate ∉ oaMsgs (IndexJs.step c5Pre .silenceExpire).2 := by
  decide

/-- C5 amended: on a silence-timer expiry with the threshold met and the
session open (and, there, configured), the `part_000` variant emits exactly
one commit followed by exactly one `response.create`; the first `index.js`
listing emits exactly one commit and no explicit response-request,
delegating response generation to the backend's server VAD. -/
theorem C5_amended :
    (∀ s : Part000.St, s.silenceTimer = true →
        MIN_FRAMES * FRAME_BYTES ≤ s.bytesBuffered →
        s.openAiOpen = true → s.openaiReady = true →
        oaMsgs (Part000.step s .silenceExpire).2 =
          [OAIMsg.commit, OAIMsg.responseCreate]) ∧
    (∀ s : IndexJs.St, s.silenceTimer = true →
        MIN_FRAMES * FRAME_BYTES ≤ s.bytesBuffered →
        s.openAiOpen = true →
        oaMsgs (IndexJs.step s .silenceExpire).2 = [OAIMsg.commit]) := by
  constructor
  · intro s h1 h2 h3 h4
    simp only [Part000.step, Part000.commitAudioBuffer, h1, if_true,
      MIN_FRAMES, FRAME_BYTES]
    simp only [MIN_FRAMES, FRAME_BYTES] at h2
    split_ifs with ha hb
    · omega
    · simp_all
    · rfl
  · intro s h1 h2 h3
    simp only [IndexJs.step, IndexJs.commitAudioBuffer, h1, if_true,
      MIN_FRAMES, FRAME_BYTES]
    simp only [MIN_FRAMES, FRAME_BYTES] at h2
    split_ifs with ha hb
    · omega
    · rfl
    · exfalso
      rw [not_and_or] at hb
      rcases hb with hb | hb
      · exact hb (by omega)
      · exact hb h3

def c5Pre000 : Part000.St :=
  { Part000.init with
    streamSid := some "CA123"
    openaiReady := true
    openAiOpen := true
    bytesBuffered := 1600
    collecting := true
    silenceTimer := true }

/-- C5 witness: the amended theorem applied at concrete ten-frame states. -/
theorem C5_amended_witness :
    oaMsgs (Part000.step c5Pre000 .silenceExpire).2 =
      [OAIMsg.commit, OAIMsg.responseCreate] ∧
    oaMsgs (IndexJs.step c5Pre .silenceExpire).2 = [OAIMsg.commit] :=
  ⟨C5_amended.1 c5Pre000 (by rfl) (by decide) (by rfl) (by rfl),
   C5_amended.2 c5Pre (by rfl) (by decide) (by rfl)⟩

def c6Pre : IndexJs.St :=
  (IndexJs.run IndexJs.init
    [.oaWsOpen, .oa .sessionUpdated,
     .oa (.responseDone [⟨"output_text", "Hi"⟩])]).1

set_option maxRecDepth 10000 in
/-- C6 counterexample: in the first `index.js` listing a response arriving
before the Twilio `start` event opens a TTS session with no stream id and
no retry, and its first chunk is forwarded as a frame tagged
`streamSid: null` — refuting both "forwards zero audio frames until the
stream identifier is known" and the 100 ms bounded retry for that
listing. -/
theorem C6_counterexample :
    c6Pre.streamSid = none ∧
    c6Pre.ttsPlaying = true ∧
    (IndexJs.step c6Pre (.elChunk 0 (List.replicate 160 2))).2 =
      [Out.frame 0 none (List.replicate 160 2)] := by
  refine ⟨by decide, by decide, by decide⟩

/-- C6 amended: in `part_000` (and the second `index.js` listing) the TTS
path forwards zero frames while the stream id is unknown or the Twilio
socket closed, and `speakWithEleven` retries on a 100 ms timer up to 20
attempts before abandoning with a warning; the first `index.js` listing has
no stream-id gate (see the counterexample). -/
theorem C6_amended :
    (∀ (s : Part000.St) (g : Nat) (c : List Nat),
        s.streamSid = none ∨ s.twilioOpen = false →
        (Part000.step s (.elChunk g c)).2 = []) ∧
    (∀ (s : Part000.St) (t : String) (a : Nat),
        ¬(t = "" ∨ jsTrim t = "") →
        s.streamSid = none ∨ s.twilioOpen = false →
        (a < 20 →
          Part000.step s (.retrySpeakAt t a) = (s, [Out.retrySpeak t (a + 1)])) ∧
        (20 ≤ a →
          Part000.step s (.retrySpeakAt t a) =
            (s, [Out.warn "No streamSid or Twilio WS not open; skipping TTS."]))) := by
  constructor
  · intro s g c h
    simp only [Part000.step, Part000.elMessageAudio]
    split_ifs with hcond
    · rcases h with h | h <;> simp_all
    · rfl
  · intro s t a ht h
    constructor
    · intro ha
      simp only [Part000.step, Part000.speakWithEleven]
      rw [if_neg ht, if_pos h, if_pos ha]
    · intro ha
      simp only [Part000.step, Part000.speakWithEleven]
      rw [if_neg ht, if_pos h, if_neg (by omega)]

def c6Gated : Part000.St := { Part000.init with openaiReady := true }

/-- C6 witness: the amended theorem applied at a concrete sid-less state. -/
theorem C6_amended_witness :
    (Part000.step c6Gated (.elChunk 0 (List.replicate 160 2))).2 = [] ∧
    Part000.step c6Gated (.retrySpeakAt "Hello" 0) =
      (c6Gated, [Out.retrySpeak "Hello" 1]) ∧
    Part000.step c6Gated (.retrySpeakAt "Hello" 20) =
      (c6Gated, [Out.warn "No streamSid or Twilio WS not open; skipping TTS."]) :=
  ⟨C6_amended.1 c6Gated 0 (List.replicate 160 2) (Or.inl rfl),
   (C6_amended.2 c6Gated "Hello" 0 (by decide) (Or.inl rfl)).1 (by omega),
   (C6_amended.2 c6Gated "Hello" 20 (by decide) (Or.inl rfl)).2 (by omega)⟩

def c9Pre : IndexJs.St :=
  (IndexJs.run IndexJs.init
    [.oaWsOpen, .oa .sessionUpdated, .twilioStart "CA123",
     .oa (.responseDone [⟨"output_text", "Hi"⟩]),
     .elChunk 0 (List.replicate 200 4)]).1

set_option maxRecDepth 10000 in
/-- C9 counterexample: in the first `index.js` listing, a TTS session that
has accumulated a 40-byte leftover carry and then receives a transport
`'close'` runs `endTTS`, which clears the playing flag and drops the socket
but leaves the carry — refuting "every termination path converges on the
same cleanup: … leftover frame carry is reset to empty". -/
theorem C9_counterexample :
    c9Pre.ttsCarry = List.replicate 40 4 ∧
    (IndexJs.step c9Pre (.elClose 0)).1.ttsPlaying = false ∧
    (IndexJs.step c9Pre (.elClose 0)).1.elevenWs = none ∧
    (IndexJs.step c9Pre (.elClose 0)).1.ttsCarry = List.replicate 40 4 := by
  refine ⟨by decide, by decide, by decide, by decide⟩

/-- C9 amended: stream-end and error messages run `stopTTS` (flag cleared,
socket dropped, carry emptied) in both TTS variants, as does barge-in; the
transport close/error path runs `stopTTS` in `part_000` but `endTTS` in the
first `index.js` listing, which clears the flag and drops the socket yet
leaves the carry untouched. -/
theorem C9_amended :
    (∀ (s : IndexJs.St) (g : Nat),
        (IndexJs.step s (.elControl g .streamEnd)).1 = IndexJs.stopTTS s ∧
        (IndexJs.step s (.elControl g .elError)).1 = IndexJs.stopTTS s ∧
        (IndexJs.step s (.elClose g)).1 = IndexJs.endTTS s ∧
        (IndexJs.step s (.elWsError g)).1 = IndexJs.endTTS s ∧
        (IndexJs.endTTS s).ttsCarry = s.ttsCarry) ∧
    (∀ (s : IndexJs.St) (p : List Nat), s.ttsPlaying = true →
        (IndexJs.step s (.twilioMedia p)).1.ttsPlaying = false ∧
        (IndexJs.step s (.twilioMedia p)).1.ttsCarry = [] ∧
        (IndexJs.step s (.twilioMedia p)).1.elevenWs = none) ∧
    (∀ (s : Part000.St) (g : Nat),
        (Part000.step s (.elControl g .streamEnd)).1 = Part000.stopTTS s ∧
        (Part000.step s (.elControl g .elError)).1 = Part000.stopTTS s ∧
        (Part000.step s (.elClose g)).1 = Part000.stopTTS s ∧
        (Part000.step s (.elWsError g)).1 = Part000.stopTTS s) ∧
    (∀ (s : Part000.St) (p : List Nat), s.ttsPlaying = true →
        (Part000.step s (.twilioMedia p)).1.ttsPlaying = false ∧
        (Part000.step s (.twilioMedia p)).1.ttsCarry = [] ∧
        (Part000.step s (.twilioMedia p)).1.elevenWs = none) := by
  refine ⟨?_, ?_, ?_, ?_⟩
  · intro s g
    exact ⟨rfl, rfl, rfl, rfl, rfl⟩
  · intro s p h
    simp only [IndexJs.step, IndexJs.onTwilioMedia, IndexJs.stopTTS, h,
      if_true]
    split_ifs <;> simp_all
  · intro s g
    exact ⟨rfl, rfl, rfl, rfl⟩
  · intro s p h
    simp only [Part000.step, Part000.onTwilioMedia, Part000.stopTTS, h,
      if_true]
    split_ifs <;> simp_all

/-- A concrete playing state with a non-empty carry. -/
def c9Playing : IndexJs.St :=
  { IndexJs.init with
    ttsPlaying := true
    elevenWs := some 0
    ttsCarry := [9, 9]
    nextGen := 1 }

/-- C9 witness: the amended theorem applied at a concrete playing state. -/
theorem C9_amended_witness :
    (IndexJs.step c9Playing (.elControl 0 .streamEnd)).1 =
      IndexJs.stopTTS c9Playing ∧
    (IndexJs.step c9Playing (.twilioMedia [7])).1.ttsCarry = [] :=
  ⟨(C9_amended.1 c9Playing 0).1,
   (C9_amended.2.1 c9Playing [7] rfl).2.1⟩

/-- A concrete state with a TTS session of generation 0 playing. -/
def c2Playing : IndexJs.St :=
  { IndexJs.init with
    ttsPlaying := true
    elevenWs := some 0
    ttsCarry := [9, 9]
    nextGen := 1 }

/-- State after: configuration, stream start, a first response spoken by
session generation 0, then a caller media frame (the barge-in) — session 0
is cancelled. -/
def c2Mid : IndexJs.St :=
  (IndexJs.run IndexJs.init
    [.oaWsOpen, .oa .sessionUpdated, .twilioStart "CA123",
     .oa (.responseDone [⟨"output_text", "Hello"⟩]),
     .twilioMedia (List.replicate 160 7)]).1

/-- State after a second response then starts session generation 1. -/
def c2Pre : IndexJs.St :=
  (IndexJs.step c2Mid (.oa (.responseDone [⟨"output_text", "Again"⟩]))).1

set_option maxRecDepth 10000 in
/-- C2 counterexample: the barge-in cancels session 0 (`ttsPlaying` false,
socket dropped) before the media frame is handled, but after a new session
(generation 1) starts, a late chunk delivered to the cancelled session 0's
handler is forwarded to Twilio — the guard reads only the shared
`ttsPlaying` flag, there is no generation token, so a frame of the
superseded session is sent after its cancellation, refuting "no audio frame
belonging to the cancelled session is ever forwarded afterwards". -/
theorem C2_counterexample :
    c2Mid.ttsPlaying = false ∧
    c2Mid.elevenWs = none ∧
    c2Mid.nextGen = 1 ∧
    c2Pre.elevenWs = some 1 ∧
    c2Pre.ttsPlaying = true ∧
    (IndexJs.step c2Pre (.elChunk 0 (List.replicate 160 1))).2 =
      [Out.frame 0 (some "CA123") (List.replicate 160 1)] := by
  refine ⟨by decide, by decide, by decide, by decide, by decide, by decide⟩

/-- C2 amended: a caller media frame always leaves `ttsPlaying` false
(barge-in cancels before the frame is otherwise handled) and itself
forwards no frame, and while no new session has been started (`ttsPlaying`
still false) a chunk delivered to any session's handler forwards nothing;
but staleness is tracked only by this shared flag — once a new session sets
it, a late chunk of the cancelled session is forwarded again (see the
counterexample), so the generation-token guarantee in the claim does not
hold. -/
theorem C2_amended :
    (∀ (s : IndexJs.St) (p : List Nat),
        (IndexJs.step s (.twilioMedia p)).1.ttsPlaying = false ∧
        framesOf (IndexJs.step s (.twilioMedia p)).2 = []) ∧
    (∀ (s : IndexJs.St) (g : Nat) (c : List Nat), s.ttsPlaying = false →
        (IndexJs.step s (.elChunk g c)).2 = []) ∧
    (∀ (s : Part000.St) (p : List Nat),
        (Part000.step s (.twilioMedia p)).1.ttsPlaying = false ∧
        framesOf (Part000.step s (.twilioMedia p)).2 = []) ∧
    (∀ (s : Part000.St) (g : Nat) (c : List Nat), s.ttsPlaying = false →
        (Part000.step s (.elChunk g c)).2 = []) := by
  refine ⟨?_, ?_, ?_, ?_⟩
  · intro s p
    simp only [IndexJs.step, IndexJs.onTwilioMedia, IndexJs.stopTTS]
    split_ifs <;> simp_all
  · intro s g c h
    simp only [IndexJs.step, IndexJs.elMessageAudio]
    split_ifs with hcond
    · simp_all
    · rfl
  · intro s p
    simp only [Part000.step, Part000.onTwilioMedia, Part000.stopTTS]
    split_ifs <;> simp_all
  · intro s g c h
    simp only [Part000.step, Part000.elMessageAudio]
    split_ifs with hcond
    · simp_all
    · rfl

/-- C2 witness: the amended theorem applied at a concrete playing state and
at a concrete cancelled state. -/
theorem C2_amended_witness :
    (IndexJs.step c2Playing (.twilioMedia [7])).1.ttsPlaying = false ∧
    (IndexJs.step (IndexJs.stopTTS c2Playing)
        (.elChunk 0 (List.replicate 160 1))).2 = [] :=
  ⟨(C2_amended.1 c2Playing [7]).1,
   C2_amended.2.1 (IndexJs.stopTTS c2Playing) 0 (List.replicate 160 1) rfl⟩
